import Mathlib

/-!
Verification of the continuous-deployment trigger server (webpilotx/cd).

The repository contains two near-duplicate server implementations:
* the streaming variant (src/unnamed/part_000), which streams git/script
  output into the HTTP response, and
* the JSON variant (src/server.js), which answers with JSON bodies.

We embed the handlers relevant to the claims: the script registry
(POST/GET /cd/api/repos/:owner/:repo/script), the credential store's
reauthorize handler (POST /cd/api/reauthorize), the webhook gateway
(POST /cd/api/webhook) and the manual trigger
(POST /cd/api/repos/:owner/:repo/run-script).
-/

namespace CD

/-- JS truthiness test for an optional string body field:
`!x` is true when the field is absent or the empty string. -/
def strFalsy : Option String → Bool
  | none => true
  | some s => s == ""

/-! ## Script registry (filesystem model)

Scripts are stored one file per repository at `SCRIPTS_DIR/<owner>_<repo>.sh`.
We model the scripts directory as an association list from path to file
(content plus permission mode); `fs.writeFile` overwrites, `fs.readFile`
on an absent path fails with ENOENT, modelled as `none`. -/

/-- A stored file: its content and its permission mode bits. -/
structure ScriptFile where
  content : String
  mode : Nat
  deriving Repr, DecidableEq

/-- The scripts directory: association list from file name to file. -/
def FsState := List (String × ScriptFile)

instance : DecidableEq FsState := by
  unfold FsState
  infer_instance

/-- `path.join(SCRIPTS_DIR, owner + "_" + repo + ".sh")`, relative to
the scripts directory. -/
def scriptFileName (owner repo : String) : String :=
  owner ++ "_" ++ repo ++ ".sh"

/-- `fs.readFile`: look the path up; `none` is the ENOENT outcome. -/
def readFileFs (fs : FsState) (p : String) : Option ScriptFile :=
  List.lookup p fs

/-- `fs.writeFile` with overwrite semantics: any prior entry at the path
disappears, replaced by the new content and mode. -/
def writeFileFs (fs : FsState) (p : String) (f : ScriptFile) : FsState :=
  (p, f) :: List.filter (fun e => e.1 != p) fs

/-- An HTTP reply as the claims observe it: status code plus the JSON
`script` field when present. -/
structure ScriptReply where
  status : Nat
  script : Option String
  deriving Repr, DecidableEq

/-- Streaming variant, POST /cd/api/repos/:owner/:repo/script
(src/unnamed/part_000 lines 322-336): writes `script || ""` with mode
0o755 and answers 200; no validation, an absent or empty body field
writes the empty file. -/
def saveScript_stream (fs : FsState) (owner repo : String)
    (script : Option String) : FsState × Nat :=
  (writeFileFs fs (scriptFileName owner repo)
    ⟨script.getD "", 0o755⟩, 200)

/-- JSON variant, POST /cd/api/repos/:owner/:repo/script
(src/server.js lines 277-293): `if (!script) return 400` rejects an
absent or empty script before touching the filesystem; otherwise writes
with mode 0o755 and answers 200. -/
def saveScript_json (fs : FsState) (owner repo : String)
    (script : Option String) : FsState × Nat :=
  if strFalsy script then
    (fs, 400)
  else
    (writeFileFs fs (scriptFileName owner repo)
      ⟨script.getD "", 0o755⟩, 200)

/-- Streaming variant, GET /cd/api/repos/:owner/:repo/script
(src/unnamed/part_000 lines 339-357): on ENOENT answers 200 with an
empty script. -/
def getScript_stream (fs : FsState) (owner repo : String) : ScriptReply :=
  match readFileFs fs (scriptFileName owner repo) with
  | some f => ⟨200, some f.content⟩
  | none => ⟨200, some ""⟩

/-- JSON variant, GET /cd/api/repos/:owner/:repo/script
(src/server.js lines 296-310): on ENOENT answers 404 with an error body
and no script field. -/
def getScript_json (fs : FsState) (owner repo : String) : ScriptReply :=
  match readFileFs fs (scriptFileName owner repo) with
  | some f => ⟨200, some f.content⟩
  | none => ⟨404, none⟩

theorem readFileFs_writeFileFs_self (fs : FsState) (p : String)
    (f : ScriptFile) : readFileFs (writeFileFs fs p f) p = some f := by
  simp [readFileFs, writeFileFs, List.lookup]

/-! ## Credential store: POST /cd/api/reauthorize

The handler (src/server.js lines 94-110, identical in
src/unnamed/part_000 lines 97-113) first sets the module-level
`accessToken` to null, then `fs.unlink(TOKEN_PATH)`.  ENOENT from the
unlink is swallowed (200); any other unlink error answers 500.  We model
the token state and keep the unlink outcome a parameter, since the
filesystem may fail independently of the modelled state. -/

/-- Credential store state: the in-memory token and the durable token
file's content (`none` when the file is absent). -/
structure TokenState where
  accessToken : Option String
  tokenFile : Option String
  deriving Repr, DecidableEq

/-- Outcome of the `fs.unlink(TOKEN_PATH)` call. -/
inductive UnlinkOutcome where
  | ok
  | enoent
  | otherError
  deriving Repr, DecidableEq

/-- POST /cd/api/reauthorize with an explicit unlink outcome:
`accessToken = null` happens before the unlink, so it takes effect on
every path, the 500 error path included. Returns the new state and the
HTTP status. -/
def reauthorizeWith (s : TokenState) (u : UnlinkOutcome) :
    TokenState × Nat :=
  let cleared : TokenState := ⟨none, s.tokenFile⟩
  match u with
  | .ok => (⟨none, none⟩, 200)
  | .enoent => (cleared, 200)
  | .otherError => (cleared, 500)

/-- POST /cd/api/reauthorize under normal filesystem semantics: unlink
succeeds exactly when the file exists, otherwise fails with ENOENT. -/
def reauthorize (s : TokenState) : TokenState × Nat :=
  reauthorizeWith s (match s.tokenFile with
    | some _ => .ok
    | none => .enoent)

/-! ## Branch extraction

The webhook gateway (src/unnamed/part_000 line 367) computes
`ref.split("/").pop()`.  We model JS `String.prototype.split` with a
single-character separator over the string's character list. -/

/-- JS `str.split(sep)` for a one-character separator: splitting the
empty string yields `[[]]`, a trailing separator yields a trailing empty
segment. -/
def jsSplitChar (c : Char) : List Char → List (List Char)
  | [] => [[]]
  | x :: xs =>
    let r := jsSplitChar c xs
    if x = c then [] :: r
    else
      match r with
      | [] => [[x]]
      | h :: t => (x :: h) :: t

/-- `ref.split("/").pop()`: the last segment produced by the split
(`pop` on the always-nonempty array from `split`). -/
def extractBranch (ref : String) : String :=
  String.mk ((jsSplitChar '/' ref.data).getLastD [])

theorem jsSplitChar_ne_nil (c : Char) (l : List Char) :
    jsSplitChar c l ≠ [] := by
  cases l with
  | nil => simp [jsSplitChar]
  | cons x xs =>
    simp only [jsSplitChar]
    split
    · simp
    · cases h : jsSplitChar c xs <;> simp

theorem jsSplitChar_append_sep (c : Char) (s t : List Char) :
    jsSplitChar c (s ++ c :: t) = jsSplitChar c s ++ jsSplitChar c t := by
  induction s with
  | nil => simp [jsSplitChar]
  | cons x xs ih =>
    obtain ⟨hh, tt, hxs⟩ : ∃ hh tt, jsSplitChar c xs = hh :: tt := by
      cases h : jsSplitChar c xs with
      | nil => exact absurd h (jsSplitChar_ne_nil c xs)
      | cons a b => exact ⟨a, b, rfl⟩
    by_cases hx : x = c
    · simp only [List.cons_append, jsSplitChar, if_pos hx, List.append_eq,
        ih]
    · simp only [List.cons_append, jsSplitChar, if_neg hx, List.append_eq,
        ih, hxs]

theorem jsSplitChar_no_sep (c : Char) (l : List Char)
    (h : c ∉ l) : jsSplitChar c l = [l] := by
  induction l with
  | nil => rfl
  | cons x xs ih =>
    simp only [List.mem_cons, not_or] at h
    simp only [jsSplitChar]
    rw [if_neg (fun hx => h.1 hx.symm), ih h.2]

theorem getLastD_append_of_ne_nil {α : Type} (a b : List α) (d : α)
    (hb : b ≠ []) : (a ++ b).getLastD d = b.getLastD d := by
  cases b with
  | nil => exact absurd rfl hb
  | cons x xs =>
    rw [List.getLastD_eq_getLast?, List.getLastD_eq_getLast?,
      List.getLast?_append_of_ne_nil]
    simp

theorem extractBranch_last_segment (s t : List Char) (h : '/' ∉ t) :
    extractBranch (String.mk (s ++ '/' :: t)) = String.mk t := by
  unfold extractBranch
  have hd : (String.mk (s ++ '/' :: t)).data = s ++ '/' :: t := rfl
  rw [hd, jsSplitChar_append_sep, jsSplitChar_no_sep '/' t h,
    getLastD_append_of_ne_nil]
  · rfl
  · simp

/-! ## Webhook payload and gateway validation

POST /cd/api/webhook (src/unnamed/part_000 lines 360-445).  The
handler destructures `{repository, ref}` from the JSON body and rejects
with 400 when `!repository || !repository.owner || !repository.name ||
!ref`; only then does it extract the branch and start the git sync. -/

/-- The `repository.owner` object of a push payload. -/
structure OwnerObj where
  login : String
  deriving Repr, DecidableEq

/-- The `repository` object of a push payload; `owner` and `name` may be
absent. -/
structure RepositoryObj where
  owner : Option OwnerObj
  name : Option String
  deriving Repr, DecidableEq

/-- A push-event payload as the webhook handler reads it. -/
structure WebhookPayload where
  repository : Option RepositoryObj
  ref : Option String
  deriving Repr, DecidableEq

/-- `!(!repository || !repository.owner || !repository.name || !ref)`:
the payload passes validation when the repository object, its owner
object, a truthy (present, nonempty) name and a truthy ref are all
there. -/
def validWebhookPayload (p : WebhookPayload) : Bool :=
  match p.repository with
  | none => false
  | some r => r.owner.isSome && !(strFalsy r.name) && !(strFalsy p.ref)

/-! ## Deployment run state machine

For the streaming webhook variant the run proceeds: git sync close
handler (lines 407-440) — non-zero exit ends the response with a
failure line and never spawns the script; zero exit spawns
`bash <scriptPath>` and the script's close handler ends the response.
The manual variant (lines 475-498) has the same sync-before-run shape
but reports through JSON status codes.  Exit codes are the subprocess
close codes. -/

/-- Terminal state of a deployment run. -/
inductive RunState where
  | syncFailed (code : Nat)
  | scriptFailed (code : Nat)
  | succeeded
  deriving Repr, DecidableEq

/-- Observable outcome of a run once the git sync has been spawned:
terminal state, whether the script subprocess was ever started (the
process-spy observation), and the HTTP status of the response. -/
structure RunResult where
  finalState : RunState
  scriptStarted : Bool
  httpStatus : Nat
  deriving Repr, DecidableEq

/-- Streaming webhook run (src/unnamed/part_000 lines 394-440), as a
function of the git and script exit codes.  The response streams with
the implicit 200 status on every path; a non-zero git exit ends the
run before the script is spawned. -/
def execWebhookRun (gitExit scriptExit : Nat) : RunResult :=
  if gitExit ≠ 0 then
    ⟨.syncFailed gitExit, false, 200⟩
  else if scriptExit ≠ 0 then
    ⟨.scriptFailed scriptExit, true, 200⟩
  else
    ⟨.succeeded, true, 200⟩

/-- The text the streaming webhook run ends its response body with
(`res.end` arguments in lines 410, 433, 438). -/
def webhookBodyEnd (gitExit scriptExit : Nat) : String :=
  if gitExit ≠ 0 then
    "Git process failed with code " ++ toString gitExit
  else if scriptExit ≠ 0 then
    "Script process failed with code " ++ toString scriptExit
  else
    "Script executed successfully."

/-- Manual run (src/unnamed/part_000 lines 475-499): the `exec`
callback receives a non-null error exactly on non-zero exit; git
failure answers 500 without spawning the script, script failure answers
500, success answers 200 with the script's stdout. -/
def execManualRun (gitExit scriptExit : Nat) : RunResult :=
  if gitExit ≠ 0 then
    ⟨.syncFailed gitExit, false, 500⟩
  else if scriptExit ≠ 0 then
    ⟨.scriptFailed scriptExit, true, 500⟩
  else
    ⟨.succeeded, true, 200⟩

/-- What the webhook gateway did with a request: HTTP status, whether
the executor (git sync + script) was invoked, the branch passed to it,
and the run's outcome. -/
structure GatewayResult where
  status : Nat
  executorInvoked : Bool
  branch : Option String
  run : Option RunResult
  deriving Repr, DecidableEq

/-- Streaming variant, POST /cd/api/webhook (src/unnamed/part_000 lines
360-445): validate, extract the branch with `ref.split("/").pop()`,
then hand over to the executor. -/
def handleWebhook_stream (p : WebhookPayload) (gitExit scriptExit : Nat) :
    GatewayResult :=
  if validWebhookPayload p then
    ⟨200, true, some (extractBranch (p.ref.getD "")),
      some (execWebhookRun gitExit scriptExit)⟩
  else
    ⟨400, false, none, none⟩

/-- JSON variant, POST /cd/api/webhook (src/server.js lines 313-347):
validates `repository`, `repository.owner`, `repository.name` (no ref
check), then `fs.access` on the script path — ENOENT answers 404 —
then runs `bash <scriptPath>`; a script error answers 500, success
200. Returns the HTTP status. -/
def handleWebhook_json (fs : FsState) (p : WebhookPayload)
    (scriptExit : Nat) : Nat :=
  match p.repository with
  | none => 400
  | some r =>
    match r.owner, r.name with
    | some o, some n =>
      if n == "" then 400
      else
        match readFileFs fs (scriptFileName o.login n) with
        | none => 404
        | some _ => if scriptExit ≠ 0 then 500 else 200
    | _, _ => 400

/-- What the manual-trigger handler did with a request: HTTP status and
whether each effect (mkdir, git spawn, script spawn) happened. -/
structure ManualResult where
  status : Nat
  mkdirCalled : Bool
  gitStarted : Bool
  scriptStarted : Bool
  deriving Repr, DecidableEq

/-- POST /cd/api/repos/:owner/:repo/run-script (src/unnamed/part_000
lines 448-504): `if (!branch || !workingDir)` answers 400 before the
`fs.mkdir` and before either subprocess; otherwise mkdir, git sync,
then the sync-before-run sequence of `execManualRun`. -/
def handleRunScript (branch workingDir : Option String)
    (gitExit scriptExit : Nat) : ManualResult :=
  if strFalsy branch || strFalsy workingDir then
    ⟨400, false, false, false⟩
  else
    let r := execManualRun gitExit scriptExit
    ⟨r.httpStatus, true, true, r.scriptStarted⟩

/-! ## The claims -/

/-- C1: in every deployment run — webhook-triggered or manual — a
non-zero exit of the git clone-or-pull step means the registered script
process is never started and the run ends in the sync-failure terminal
state. -/
theorem claim_C1 (g s : Nat) (hg : g ≠ 0) :
    (execWebhookRun g s).scriptStarted = false ∧
    (execWebhookRun g s).finalState = RunState.syncFailed g ∧
    (execManualRun g s).scriptStarted = false ∧
    (execManualRun g s).finalState = RunState.syncFailed g := by
  refine ⟨?_, ?_, ?_, ?_⟩ <;> simp [execWebhookRun, execManualRun, hg]

/-- C1 witness: a concrete run with git exit 1. -/
theorem claim_C1_witness :
    (execWebhookRun 1 0).scriptStarted = false ∧
    (execWebhookRun 1 0).finalState = RunState.syncFailed 1 ∧
    (execManualRun 1 0).scriptStarted = false ∧
    (execManualRun 1 0).finalState = RunState.syncFailed 1 :=
  claim_C1 1 0 (by decide)

/-- C2 counterexample: the code extracts the branch with
`ref.split("/").pop()`, so for `ref = "refs/heads/release/v2"` the
extracted branch is `"v2"`, not `"release/v2"` as the claim's concrete
example states. -/
theorem claim_C2_counterexample :
    extractBranch "refs/heads/release/v2" = "v2" ∧
    extractBranch "refs/heads/release/v2" ≠ "release/v2" := by
  constructor
  · decide
  · decide

/-- C2 (amended): branch extraction takes the final path segment after
the last `/` in the ref — for any ref written as some prefix, a slash
and a slash-free tail, the extracted branch is exactly that tail (so
`"refs/heads/release/v2"` yields `"v2"`). -/
theorem claim_C2 (s t : List Char) (h : '/' ∉ t) :
    extractBranch (String.mk (s ++ '/' :: t)) = String.mk t :=
  extractBranch_last_segment s t h

/-- C2 witness: the final segment of `"refs/heads/release/v2"`. -/
theorem claim_C2_witness :
    extractBranch (String.mk ("refs/heads/release".data ++ '/' :: "v2".data))
      = String.mk "v2".data :=
  claim_C2 "refs/heads/release".data "v2".data (by decide)

/-- C3 counterexample: in the JSON variant (src/server.js lines
296-310), GET script for a repository with no stored script answers
404 with no script field — an error status, refuting "never an
error". -/
theorem claim_C3_counterexample :
    getScript_json [] "owner" "repo" = ⟨404, none⟩ ∧
    (404 : Nat) ≠ 200 := by
  constructor
  · decide
  · decide

/-- C3 (amended): for a repository identity never previously
registered, the streaming variant's GetScript answers 200 with the
empty script (absence is a successful empty-script response); the JSON
variant instead answers 404. -/
theorem claim_C3 (fs : FsState) (owner repo : String)
    (h : readFileFs fs (scriptFileName owner repo) = none) :
    getScript_stream fs owner repo = ⟨200, some ""⟩ ∧
    getScript_json fs owner repo = ⟨404, none⟩ := by
  constructor
  · simp [getScript_stream, h]
  · simp [getScript_json, h]

/-- C3 witness: an empty scripts directory. -/
theorem claim_C3_witness :
    getScript_stream [] "owner" "repo" = ⟨200, some ""⟩ ∧
    getScript_json [] "owner" "repo" = ⟨404, none⟩ :=
  claim_C3 [] "owner" "repo" (by decide)

/-- C4 counterexample: in the JSON variant (src/server.js lines
313-347) a webhook-triggered run whose script exits non-zero answers
500 — a non-2xx status — refuting "never through a non-2xx status
code". -/
theorem claim_C4_counterexample :
    handleWebhook_json [(scriptFileName "o" "r", ⟨"x", 0o755⟩)]
      ⟨some ⟨some ⟨"o"⟩, some "r"⟩, some "refs/heads/main"⟩ 1 = 500 ∧
    (500 : Nat) ≠ 200 := by
  constructor
  · decide
  · decide

/-- C4 (amended): in the streaming variant, every webhook-triggered run
that reaches the sync step responds 200 whatever the git and script
exit codes — success and both failure kinds alike — the outcome being
narrated only in the response text; the JSON variant instead conveys a
missing script through a 404 status and a script failure through a 500
status. -/
theorem claim_C4 (g s sA s2 : Nat) (fsA fsP : FsState) (ol n : String)
    (rf : Option String) (f : ScriptFile) (hn : n ≠ "")
    (hA : readFileFs fsA (scriptFileName ol n) = none)
    (hP : readFileFs fsP (scriptFileName ol n) = some f)
    (hs2 : s2 ≠ 0) :
    (execWebhookRun g s).httpStatus = 200 ∧
    handleWebhook_json fsA ⟨some ⟨some ⟨ol⟩, some n⟩, rf⟩ sA = 404 ∧
    handleWebhook_json fsP ⟨some ⟨some ⟨ol⟩, some n⟩, rf⟩ s2 = 500 := by
  refine ⟨?_, ?_, ?_⟩
  · by_cases hg : g ≠ 0 <;> by_cases hs : s ≠ 0 <;>
      simp [execWebhookRun, hg, hs]
  · simp only [handleWebhook_json, hA]
    rw [if_neg (by simpa using hn)]
  · simp only [handleWebhook_json, hP]
    rw [if_neg (by simpa using hn), if_pos hs2]

/-- C4 witness: a fully successful streaming run (both exits 0) still
answers 200; the JSON variant answers 404 on an empty store and 500 on
script exit 1 against a stored script. -/
theorem claim_C4_witness :
    (execWebhookRun 0 0).httpStatus = 200 ∧
    handleWebhook_json []
      ⟨some ⟨some ⟨"o"⟩, some "r"⟩, some "refs/heads/main"⟩ 0 = 404 ∧
    handleWebhook_json [(scriptFileName "o" "r", ⟨"x", 0o755⟩)]
      ⟨some ⟨some ⟨"o"⟩, some "r"⟩, some "refs/heads/main"⟩ 1 = 500 :=
  claim_C4 0 0 0 1 [] [(scriptFileName "o" "r", ⟨"x", 0o755⟩)] "o" "r"
    (some "refs/heads/main") ⟨"x", 0o755⟩ (by decide) (by decide)
    (by decide) (by decide)

/-- C5 counterexample: the JSON variant (src/server.js lines 277-293)
rejects an empty script body with 400 and writes nothing, refuting
"accepts any text including the empty string". -/
theorem claim_C5_counterexample :
    saveScript_json [] "o" "r" (some "") = ([], 400) ∧
    (400 : Nat) ≠ 200 := by
  constructor
  · decide
  · decide

/-- C5 (amended): the streaming variant's SaveScript accepts any text
including the empty string — an empty or absent script field is a valid
call that answers 200 and overwrites prior content with the empty file —
and every successful save (in either variant) stores the file with
executable mode 0o755; the JSON variant instead rejects an empty or
absent script with 400, leaving the store untouched. -/
theorem claim_C5 (fs : FsState) (owner repo : String)
    (script : Option String) (hne : strFalsy script = false) :
    (saveScript_stream fs owner repo script).2 = 200 ∧
    readFileFs (saveScript_stream fs owner repo script).1
      (scriptFileName owner repo) = some ⟨script.getD "", 0o755⟩ ∧
    (saveScript_stream fs owner repo (some "")).2 = 200 ∧
    readFileFs (saveScript_stream fs owner repo (some "")).1
      (scriptFileName owner repo) = some ⟨"", 0o755⟩ ∧
    saveScript_json fs owner repo (some "") = (fs, 400) ∧
    (saveScript_json fs owner repo script).2 = 200 ∧
    readFileFs (saveScript_json fs owner repo script).1
      (scriptFileName owner repo) = some ⟨script.getD "", 0o755⟩ := by
  refine ⟨rfl, readFileFs_writeFileFs_self .., rfl,
    readFileFs_writeFileFs_self .., ?_, ?_, ?_⟩
  · simp [saveScript_json, strFalsy]
  · simp [saveScript_json, hne]
  · simp only [saveScript_json, hne, Bool.false_eq_true, if_false]
    exact readFileFs_writeFileFs_self ..

/-- C5 witness: saving the one-line script `"echo hi"`. -/
theorem claim_C5_witness :
    (saveScript_stream [] "o" "r" (some "echo hi")).2 = 200 ∧
    readFileFs (saveScript_stream [] "o" "r" (some "echo hi")).1
      (scriptFileName "o" "r") = some ⟨(some "echo hi").getD "", 0o755⟩ ∧
    (saveScript_stream [] "o" "r" (some "")).2 = 200 ∧
    readFileFs (saveScript_stream [] "o" "r" (some "")).1
      (scriptFileName "o" "r") = some ⟨"", 0o755⟩ ∧
    saveScript_json [] "o" "r" (some "") = ([], 400) ∧
    (saveScript_json [] "o" "r" (some "echo hi")).2 = 200 ∧
    readFileFs (saveScript_json [] "o" "r" (some "echo hi")).1
      (scriptFileName "o" "r") = some ⟨(some "echo hi").getD "", 0o755⟩ :=
  claim_C5 [] "o" "r" (some "echo hi") (by decide)

/-- C6: a push payload missing the repository object, the repository
owner, the repository name, or the ref is answered 400 by the webhook
gateway, and the deployment executor (git sync and script execution) is
never invoked. -/
theorem claim_C6 (p : WebhookPayload) (g s : Nat)
    (h : p.repository = none ∨ ∃ r, p.repository = some r ∧
      (r.owner = none ∨ r.name = none ∨ p.ref = none)) :
    handleWebhook_stream p g s = ⟨400, false, none, none⟩ := by
  have hv : validWebhookPayload p = false := by
    rcases h with h | ⟨r, hr, h⟩
    · simp [validWebhookPayload, h]
    · rcases h with h | h | h <;>
        simp [validWebhookPayload, hr, h, strFalsy]
  simp [handleWebhook_stream, hv]

/-- C6 witness: a payload missing `repository.name`. -/
theorem claim_C6_witness :
    handleWebhook_stream ⟨some ⟨some ⟨"o"⟩, none⟩, some "refs/heads/main"⟩
      0 0 = ⟨400, false, none, none⟩ :=
  claim_C6 ⟨some ⟨some ⟨"o"⟩, none⟩, some "refs/heads/main"⟩ 0 0
    (Or.inr ⟨⟨some ⟨"o"⟩, none⟩, rfl, Or.inr (Or.inl rfl)⟩)

/-- C7: a manual-trigger request with an empty or missing branch or
workingDir is answered 400, with no directory creation and no
subprocess — neither git nor the script is started. -/
theorem claim_C7 (branch workingDir : Option String) (g s : Nat)
    (h : strFalsy branch = true ∨ strFalsy workingDir = true) :
    handleRunScript branch workingDir g s = ⟨400, false, false, false⟩ := by
  rcases h with h | h <;> simp [handleRunScript, h]

/-- C7 witness: a request whose branch is the empty string. -/
theorem claim_C7_witness :
    handleRunScript (some "") (some "/tmp/wd") 0 0
      = ⟨400, false, false, false⟩ :=
  claim_C7 (some "") (some "/tmp/wd") 0 0 (Or.inl (by decide))

/-- C8: ClearToken (POST /cd/api/reauthorize) is idempotent — on any
starting state it answers 200 and leaves no in-memory token and no
durable token file (deleting a non-existent durable copy is not an
error), and a second call returns exactly the same observable result. -/
theorem claim_C8 (s : TokenState) :
    (reauthorize s).2 = 200 ∧
    (reauthorize s).1.accessToken = none ∧
    (reauthorize s).1.tokenFile = none ∧
    reauthorize (reauthorize s).1 = reauthorize s := by
  cases s with
  | mk tok file =>
    cases file <;>
      simp [reauthorize, reauthorizeWith]

/-- C10 (implicit): the reauthorize handler sets the in-memory token to
null before attempting the durable delete, so after every request —
whatever the unlink outcome, the non-ENOENT 500 error path included —
the in-memory token is none; on that error path the handler answers 500
yet the state has already changed (the durable file, when present, is
left behind while the memory entry is gone: ClearToken is not
atomic). -/
theorem claim_C10 (s : TokenState) (u : UnlinkOutcome) :
    (reauthorizeWith s u).1.accessToken = none ∧
    (reauthorizeWith s UnlinkOutcome.otherError).2 = 500 ∧
    (reauthorizeWith s UnlinkOutcome.otherError).1.accessToken = none ∧
    (reauthorizeWith s UnlinkOutcome.otherError).1.tokenFile
      = s.tokenFile := by
  cases u <;> simp [reauthorizeWith]

/-- C9: saving a script then reading it back on the same repository
identity returns exactly the saved text (round-trip over the script
store, streaming variant). -/
theorem claim_C9 (fs : FsState) (owner repo text : String) :
    getScript_stream (saveScript_stream fs owner repo (some text)).1
      owner repo = ⟨200, some text⟩ := by
  simp [getScript_stream, saveScript_stream,
    readFileFs_writeFileFs_self]

end CD
